import Mathlib

/-!
Verification development for the `onc_dts` repository.

The repository has two source files:
* `src/onc_dts/utils.py` — the frame decoder `parse_xt_json` (plus file
  reading and plotting helpers, which are out of scope);
* `src/onc_dts/monitor_dts.py` — the raw-record source
  `fetch_onc_realtime_data` and the polling stream `RawDataFetcher`.

This file shallowly embeds both in Lean.  Conventions:
* Python `dict` access `d['k']` on a possibly missing key is modelled by
  an `Option` field read through `getKey` (a `KeyError` in the `Except`
  monad); `d.get('k', v)` is `Option.getD`.
* The IEEE-754 float32 values are never arithmetically used by the code
  under verification (only reinterpreted from bytes, sliced and
  reshaped), so each float is represented by its 32-bit pattern as a
  `Nat < 2^32` — faithful to the "pure reinterpretation" the code
  performs via `np.frombuffer(..., dtype='<f4')`.
* Floating point numbers that ARE used arithmetically (`dz` and the
  derived lengths/distances) are represented in `ℚ`; the code only
  multiplies and adds exact small integers with `dz`, and the claims
  compare the very same expressions on both sides.
* `base64.b64decode` is modelled for canonical RFC 4648 input
  (alphabet characters plus trailing padding); any other input is an
  error.  All inputs appearing in claims are canonical.
* Timestamps (`sampleTime`, `dateFrom`) are sortable opaque values,
  modelled as `Nat`.
-/

namespace OncDts

/-- Python exception kinds that the embedded code can raise. -/
inductive PyError where
  | keyError
  | typeError
  | valueError
  | binasciiError
  deriving DecidableEq, Repr

/-- Reading a required key from a Python dict: missing key raises `KeyError`. -/
def getKey {α : Type} : Option α → Except PyError α
  | some a => Except.ok a
  | none => Except.error PyError.keyError

/-! ### Base64 (RFC 4648, standard alphabet) and little-endian float32 packing

`parse_xt_json` decodes every `signal.Data` string with
`np.frombuffer(b64decode(data), dtype='<f4')` (utils.py lines 62-65,
99-102, 112-115).  Characters are represented by their ASCII codes. -/
/-- Map a base64 alphabet character (ASCII code) to its 6-bit value. -/
def charToSextet (c : Nat) : Option Nat :=
  if 65 ≤ c ∧ c ≤ 90 then some (c - 65)        -- 'A'..'Z'
  else if 97 ≤ c ∧ c ≤ 122 then some (c - 71)  -- 'a'..'z'
  else if 48 ≤ c ∧ c ≤ 57 then some (c + 4)    -- '0'..'9'
  else if c = 43 then some 62                  -- '+'
  else if c = 47 then some 63                  -- '/'
  else none

/-- Map a 6-bit value to its base64 alphabet character (ASCII code). -/
def sextetToChar (s : Nat) : Nat :=
  if s < 26 then s + 65
  else if s < 52 then s + 71
  else if s < 62 then s - 4
  else if s = 62 then 43
  else 47

/-- Model of Python's `base64.b64decode` on canonical input: four
characters at a time, `'='` (ASCII 61) padding allowed only at the very
end.  Non-canonical input is a `binascii.Error`. -/
def b64decodeStr : List Nat → Except PyError (List Nat)
  | [] => Except.ok []
  | c1 :: c2 :: c3 :: c4 :: rest =>
    match charToSextet c1, charToSextet c2 with
    | some s1, some s2 =>
      if c3 = 61 then
        if c4 = 61 ∧ rest = [] then Except.ok [s1 * 4 + s2 / 16]
        else Except.error PyError.binasciiError
      else
        match charToSextet c3 with
        | some s3 =>
          if c4 = 61 then
            if rest = [] then Except.ok [s1 * 4 + s2 / 16, s2 % 16 * 16 + s3 / 4]
            else Except.error PyError.binasciiError
          else
            match charToSextet c4 with
            | some s4 =>
              match b64decodeStr rest with
              | Except.ok tail =>
                  Except.ok ((s1 * 4 + s2 / 16) :: (s2 % 16 * 16 + s3 / 4) ::
                    (s3 % 4 * 64 + s4) :: tail)
              | Except.error e => Except.error e
            | none => Except.error PyError.binasciiError
        | none => Except.error PyError.binasciiError
    | _, _ => Except.error PyError.binasciiError
  | _ => Except.error PyError.binasciiError

/-- RFC 4648 base64 encoding of a byte sequence (bytes are `Nat < 256`,
output is a list of ASCII codes).  This is the "encoding a known float32
array to base64" side of the round-trip property; the repository itself
only decodes. -/
def b64encodeBytes : List Nat → List Nat
  | [] => []
  | [a] => [sextetToChar (a / 4), sextetToChar (a % 4 * 16), 61, 61]
  | [a, b] => [sextetToChar (a / 4), sextetToChar (a % 4 * 16 + b / 16),
      sextetToChar (b % 16 * 4), 61]
  | a :: b :: c :: rest =>
      sextetToChar (a / 4) :: sextetToChar (a % 4 * 16 + b / 16) ::
        sextetToChar (b % 16 * 4 + c / 64) :: sextetToChar (c % 64) ::
        b64encodeBytes rest

/-- Serialize 32-bit words as contiguous little-endian 4-byte groups. -/
def wordsToBytesLE : List Nat → List Nat
  | [] => []
  | w :: ws => w % 256 :: w / 256 % 256 :: w / 65536 % 256 :: w / 16777216 % 256 ::
      wordsToBytesLE ws

/-- Group bytes into 32-bit little-endian words (the reinterpretation done
by `np.frombuffer(..., dtype='<f4')`, with each float32 represented by its
bit pattern). -/
def bytesToWordsLE : List Nat → List Nat
  | b0 :: b1 :: b2 :: b3 :: rest =>
      (b0 + b1 * 256 + b2 * 65536 + b3 * 16777216) :: bytesToWordsLE rest
  | _ => []

/-- Model of `np.frombuffer(bytes, dtype='<f4')`: the byte count must be a
multiple of the 4-byte item size (else numpy raises `ValueError`). -/
def frombufferF4LE (bytes : List Nat) : Except PyError (List Nat) :=
  if bytes.length % 4 = 0 then Except.ok (bytesToWordsLE bytes)
  else Except.error PyError.valueError

/-- The frame decoder's buffer decoding (utils.py lines 62-65):
`np.frombuffer(b64decode(data), dtype='<f4')`. -/
def decodeSignalBuffer (dat : List Nat) : Except PyError (List Nat) := do
  let bytes ← b64decodeStr dat
  frombufferF4LE bytes

/-! ### Input data model of the frame decoder

The nested JSON shape consumed by `parse_xt_json` (utils.py lines 47-121).
Required keys are reads that raise `KeyError` when absent, hence `Option`
fields read through `getKey`; keys read with `.get` carry their default at
the use site. -/
/-- The object at key `signal` (holding the base64 string at key `Data`). -/
structure SignalObj where
  Data : Option (List Nat)
  deriving DecidableEq

/-- The object at key `resampled temperature data`. -/
structure ResampledTempData where
  dz : Option ℚ
  first_external_point : Option Nat
  signal : Option SignalObj
  deriving DecidableEq

/-- The object at key `resampled forward raw data` or `resampled reverse raw data`. -/
structure RawBlock where
  signal : Option SignalObj
  deriving DecidableEq

/-- The object at key `processed data`. -/
structure ProcessedData where
  forward_channel : Option Nat
  resampled_temperature_data : Option ResampledTempData
  resampled_forward_raw_data : Option RawBlock
  resampled_reverse_raw_data : Option RawBlock
  number_of_channels : Option Nat
  deriving DecidableEq

/-- A whole `.xt` JSON document (after the `Resp` unwrapping performed by
`read_xt_file`, which is how `parse_xt_json` always receives it). -/
structure XtJson where
  processed_data : Option ProcessedData
  date_time : Option String
  deriving DecidableEq

/-! ### Output data model of the frame decoder -/
/-- The metadata dict assembled at utils.py lines 48-59. -/
structure Metadata where
  channel : Nat
  dz : ℚ
  first_external_point : Nat
  filename : String
  datetime : Option String
  n_external_points : Nat
  external_length : ℚ
  total_length : ℚ
  deriving DecidableEq

/-- A numpy array of float32 bit patterns: either 1-D or 2-D
(rows × columns), as produced with or without the `reshape` at
utils.py lines 104-107 and 117-118. -/
inductive RawArray where
  | one (l : List Nat)
  | two (rows : List (List Nat))
  deriving DecidableEq

/-- Row count of a numpy array: `arr.shape[0]` (for a 1-D array this is its
length). -/
def RawArray.shape0 : RawArray → Nat
  | RawArray.one l => l.length
  | RawArray.two rows => rows.length

/-- The dict stored under the `raw_data` key (utils.py lines 86-95), with
optional `forward` and `reverse` entries. -/
structure RawDataOut where
  forward : Option RawArray
  reverse : Option RawArray
  deriving DecidableEq

/-- The result dict of `parse_xt_json`.  The keys `raw_fwd`, `raw_rev` and
`raw_data` are only conditionally inserted by the source, hence `Option`
fields (with `none` meaning "key absent"); `metadata`, `temp_data` and
`distance` are always present on success. -/
structure ParseResult where
  metadata : Metadata
  temp_data : List Nat
  distance : List ℚ
  raw_fwd : Option RawArray
  raw_rev : Option RawArray
  raw_data : Option RawDataOut
  deriving DecidableEq

/-- Split a list into `rows` rows of `cols` elements each (row-major), the
shape produced by `np.reshape(rows, cols)` on a buffer of `rows * cols`
elements. -/
def splitRows {α : Type} (rows cols : Nat) (l : List α) : List (List α) :=
  match rows with
  | 0 => []
  | r + 1 => l.take cols :: splitRows r cols (l.drop cols)

/-- Model of numpy `arr.reshape(c, -1)`: infers the column count as
`len / c`, raising `ValueError` when `c` is zero, the array is empty, or
the length is not divisible by `c`. -/
def npReshapeRows (c : Nat) (l : List Nat) : Except PyError (List (List Nat)) :=
  if c = 0 ∨ l.length = 0 ∨ l.length % c ≠ 0 then Except.error PyError.valueError
  else Except.ok (splitRows c (l.length / c) l)

/-- The default `channel_points` table `{1: 2206, 2: 1561}` of
`parse_xt_json` (utils.py line 21), as an association list. -/
def defaultChannelPoints : List (Nat × Nat) := [(1, 2206), (2, 1561)]

/-! ### The frame decoder `parse_xt_json` (utils.py lines 19-121)

The body is split into named pieces matching the commented blocks of the
source; `parse_xt_json` chains them in source order. -/
/-- Lines 85-95: the `include_raw` block.  It reads the (at this point
never populated) `raw_fwd` / `raw_rev` keys of the result dict built so
far and inserts `raw_data` only when at least one of them is present. -/
def applyIncludeRaw (include_raw : Bool) (result : ParseResult) : ParseResult :=
  if include_raw then
    let raw_data : RawDataOut := { forward := result.raw_fwd, reverse := result.raw_rev }
    if raw_data.forward.isSome || raw_data.reverse.isSome then
      { result with raw_data := some raw_data }
    else result
  else result

/-- Lines 97-108: decode `resampled forward raw data` when present and
reshape it to `(number of channels, -1)` when it is longer than the
temperature buffer.  `temp_len` is the length of the full (untrimmed)
temperature buffer local variable. -/
def extractRawFwd (pd : ProcessedData) (temp_len : Nat) (result : ParseResult) :
    Except PyError ParseResult :=
  match pd.resampled_forward_raw_data with
  | none => Except.ok result
  | some blk => do
    let sig ← getKey blk.signal
    let dat ← getKey sig.Data
    let raw_fwd ← decodeSignalBuffer dat
    if temp_len < raw_fwd.length then
      let channels := pd.number_of_channels.getD 2
      let rows ← npReshapeRows channels raw_fwd
      Except.ok { result with raw_fwd := some (RawArray.two rows) }
    else
      Except.ok { result with raw_fwd := some (RawArray.one raw_fwd) }

/-- Lines 110-119: decode `resampled reverse raw data` when present and
reshape it to the forward array's row count when forward exists and the
reverse buffer is longer than the temperature buffer. -/
def extractRawRev (pd : ProcessedData) (temp_len : Nat) (result : ParseResult) :
    Except PyError ParseResult :=
  match pd.resampled_reverse_raw_data with
  | none => Except.ok result
  | some blk => do
    let sig ← getKey blk.signal
    let dat ← getKey sig.Data
    let raw_rev ← decodeSignalBuffer dat
    match result.raw_fwd with
    | some fwd =>
      if temp_len < raw_rev.length then
        let rows ← npReshapeRows fwd.shape0 raw_rev
        Except.ok { result with raw_rev := some (RawArray.two rows) }
      else
        Except.ok { result with raw_rev := some (RawArray.one raw_rev) }
    | none => Except.ok { result with raw_rev := some (RawArray.one raw_rev) }

/-- The frame decoder `parse_xt_json` (utils.py lines 19-121). -/
def parse_xt_json (json_data : XtJson) (file_name : String)
    (channel_points : List (Nat × Nat) := defaultChannelPoints)
    (include_raw : Bool := false) (trim : Bool := true) :
    Except PyError ParseResult := do
  -- lines 48-54: the metadata dict literal (fields evaluated in order)
  let pd ← getKey json_data.processed_data
  let channel := pd.forward_channel.getD 0 + 1
  let rtd ← getKey pd.resampled_temperature_data
  let dz ← getKey rtd.dz
  let fep ← getKey rtd.first_external_point
  -- lines 56-59: derived metadata; `channel_points[channel]` raises
  -- KeyError when the channel is not a key of the table
  let n_ext ← getKey (channel_points.lookup channel)
  let md : Metadata :=
    { channel := channel, dz := dz, first_external_point := fep,
      filename := file_name, datetime := json_data.date_time,
      n_external_points := n_ext,
      external_length := (n_ext : ℚ) * dz,
      total_length := (n_ext : ℚ) * dz + (fep : ℚ) * dz }
  -- lines 61-65: temperature buffer
  let sig ← getKey rtd.signal
  let dat ← getKey sig.Data
  let temp_data ← decodeSignalBuffer dat
  -- lines 72-82: distance array and trimming; `temp_data[pt_from:pt_to]`
  -- is a Python slice, which clamps out-of-range bounds
  let pt_from := fep
  let pt_to := fep + n_ext
  let trimmed :=
    if trim then (temp_data.drop pt_from).take (pt_to - pt_from) else temp_data
  let distance :=
    if trim then
      (List.range' pt_from (pt_to - pt_from)).map
        (fun i : Nat => ((i : ℚ) - (pt_from : ℚ)) * dz)
    else
      (List.range temp_data.length).map (fun i : Nat => (i : ℚ) * dz)
  let result : ParseResult :=
    { metadata := md, temp_data := trimmed, distance := distance,
      raw_fwd := none, raw_rev := none, raw_data := none }
  -- lines 85-95 run before the raw extraction blocks below
  let result := applyIncludeRaw include_raw result
  -- lines 97-108 then 110-119 (both compare against the length of the
  -- full temperature buffer local, not the trimmed result entry)
  let result ← extractRawFwd pd temp_data.length result
  extractRawRev pd temp_data.length result

/-! ### The raw record source and polling stream (monitor_dts.py)

Timestamps are opaque sortable values, modelled as `Nat`.  The remote
`data` page shape mirrors exactly the keys the code reads. -/
/-- One line of the remote device log (the fields the code reads). -/
structure RawRecord where
  sampleTime : Nat
  rawData : String
  deriving DecidableEq

/-- The object at `next.parameters` of a page result. -/
structure NextParams where
  dateFrom : Option Nat
  deriving DecidableEq

/-- The object at `next` of a page result. -/
structure NextObj where
  parameters : Option NextParams
  deriving DecidableEq

/-- One page result of the remote API. -/
structure Page where
  data : List RawRecord
  next : Option NextObj
  deriving DecidableEq

/-- The continuation extraction
`result['next']['parameters']['dateFrom']` guarded by
`except (KeyError, TypeError)` (monitor_dts.py lines 95-98 and 117-120):
any missing link in the chain yields `none`. -/
def extractNext (p : Page) : Option Nat :=
  (p.next.bind NextObj.parameters).bind NextParams.dateFrom

/-- The command-frame marker `'\x7b"Cmd":"getData",'` tested with
`startswith` at monitor_dts.py line 114. -/
def cmdMarker : String := "\x7b\"Cmd\":\"getData\","

/-- Whether a record's `rawData` begins with the command-frame marker. -/
def hasCmdMarker (s : String) : Bool := String.startsWith s cmdMarker

/-- One remote HTTP response, as seen by `fetch_onc_realtime_data`. -/
structure HttpResponse where
  status : Nat
  body : Page

/-- The raw record source `fetch_onc_realtime_data` (monitor_dts.py lines
33-78): a 200 status yields the JSON page, any other status logs and
returns `None`. -/
def fetch_onc_realtime_data (response : HttpResponse) : Option Page :=
  if response.status = 200 then some response.body else none

/-- The mutable state of a `RawDataFetcher` (monitor_dts.py lines 81-86,
plus the `last_date` attribute first assigned at line 121).  `json_data`
holds the buffered matching payloads; `json.loads` is modelled as keeping
the raw string, since no claim inspects the decoded structure. -/
structure FetchState where
  next_date : Option Nat
  last_date : Option Nat
  json_data : List String
  deriving DecidableEq

/-- The query parameters of one remote fetch that distinguish the two
fetch paths: the Bootstrapping probe uses `row_limit=1` keyed on
`last_date`, the Paging fetch uses the default `row_limit=100` keyed on
`next_date` (both use `get_latest=False`). -/
structure Request where
  dateFrom : Option Nat
  rowLimit : Nat
  getLatest : Bool
  deriving DecidableEq

/-- The body of `for item in result['data']` (monitor_dts.py lines
108-121): append matching payloads, re-read the page's continuation
(falling back to `None`), record the item's `sampleTime`.  The `Bool`
component is the local `found_data` flag. -/
def scanRecord (page : Page) : FetchState × Bool → RawRecord → FetchState × Bool
  | (st, found), item =>
    let found := if hasCmdMarker item.rawData then true else found
    let st :=
      if hasCmdMarker item.rawData then
        { st with json_data := st.json_data ++ [item.rawData] }
      else st
    ({ st with next_date := extractNext page, last_date := some item.sampleTime }, found)

/-- Scanning one fetched page: the full `for` loop over its records. -/
def processPage (s : FetchState × Bool) (page : Page) : FetchState × Bool :=
  page.data.foldl (scanRecord page) s

/-- Outcome of running (part of) `_fetch_next` against a finite list of
fetch results. -/
inductive FetchOutcome where
  | ok (st : FetchState)
  | typeError (st : FetchState)
  | outOfOracle (st : FetchState)
  deriving DecidableEq

/-- The Bootstrapping loop `while self.next_date is None` (monitor_dts.py
lines 91-101): probe with a single-row fetch keyed on `last_date`, set
`next_date` from the result (falling back to `None`), repeat.  The
`oracle` list supplies the successive fetch results
(`none` = non-success response); the loop is unbounded in the source, so
the model returns the remaining oracle on exit and `none` when the oracle
is exhausted while still looping.  The first component is the trace of
requests issued. -/
def bootstrapLoop (st : FetchState) (oracle : List (Option Page)) :
    List Request × FetchState × Option (List (Option Page)) :=
  match st.next_date with
  | some _ => ([], st, some oracle)
  | none =>
    match oracle with
    | [] => ([], st, none)
    | r :: rest =>
      let out := bootstrapLoop { st with next_date := r.bind extractNext } rest
      (⟨st.last_date, 1, false⟩ :: out.1, out.2)

/-- The Paging loop `while not found_data and self.next_date is not None`
(monitor_dts.py lines 103-122): fetch a page at `next_date` (default
`row_limit=100`), then scan it.  A non-success fetch result (`None`) makes
`result['data']` raise `TypeError` (lines 106-108), which is not caught.
The function returns the requests issued plus the outcome. -/
def pagingLoop (st : FetchState) (found : Bool) (oracle : List (Option Page)) :
    List Request × FetchOutcome :=
  match st.next_date with
  | none => ([], FetchOutcome.ok st)
  | some c =>
    if found then ([], FetchOutcome.ok st)
    else
      match oracle with
      | [] => ([], FetchOutcome.outOfOracle st)
      | none :: _ => ([⟨some c, 100, false⟩], FetchOutcome.typeError st)
      | some page :: rest =>
        let s2 := processPage (st, found) page
        let out := pagingLoop s2.1 s2.2 rest
        (⟨some c, 100, false⟩ :: out.1, out.2)

/-- One call of `RawDataFetcher._fetch_next` (monitor_dts.py lines
88-123): the Bootstrapping loop followed by the Paging loop.  Its Python
return value is discarded by `__next__`, so it is not modelled. -/
def fetchNext (st : FetchState) (oracle : List (Option Page)) :
    List Request × FetchOutcome :=
  let b := bootstrapLoop st oracle
  match b.2.2 with
  | none => (b.1, FetchOutcome.outOfOracle b.2.1)
  | some rest =>
    let p := pagingLoop b.2.1 false rest
    (b.1 ++ p.1, p.2)

/-- The successive `dateFrom` cursor values used by the stream's Paging
fetches when the k-th fetch returns the k-th page of `pages`: each fetch
uses the current `next_date`, and the state then evolves by `processPage`.
(The `found_data` flag only splits this fetch sequence across successive
`_fetch_next` calls — it is reset to `False` at each entry and does not
affect `next_date` — so the cursor sequence of the stream is exactly this
list.) -/
def streamCursors : FetchState → List Page → List Nat
  | _, [] => []
  | st, p :: ps =>
    match st.next_date with
    | none => []
    | some c => c :: streamCursors (processPage (st, false) p).1 ps

/-- The hypothesis of the pagination-monotonicity claim, per page: the
declared continuation (when present) is at least the `sampleTime` of the
page's last record (when the page has one). -/
def contOkB (p : Page) : Bool :=
  match extractNext p, p.data.getLast? with
  | some t, some r => r.sampleTime ≤ t
  | _, _ => true

/-- Strengthened fetch hypothesis: every record of each page carries a
`sampleTime` at least the cursor used to fetch that page. -/
def goodFetchB : FetchState → List Page → Bool
  | _, [] => true
  | st, p :: ps =>
    match st.next_date with
    | none => true
    | some c =>
      p.data.all (fun r => c ≤ r.sampleTime) && goodFetchB (processPage (st, false) p).1 ps

instance {ε α : Type} [DecidableEq ε] [DecidableEq α] : DecidableEq (Except ε α) := fun x y =>
  match x, y with
  | Except.ok a, Except.ok b =>
    if h : a = b then isTrue (by subst h; rfl) else isFalse (fun e => h (Except.ok.inj e))
  | Except.error a, Except.error b =>
    if h : a = b then isTrue (by subst h; rfl) else isFalse (fun e => h (Except.error.inj e))
  | Except.ok _, Except.error _ => isFalse (fun e => Except.noConfusion e)
  | Except.error _, Except.ok _ => isFalse (fun e => Except.noConfusion e)

/-- A frame of the shape `parse_xt_json` fully accepts up to its optional
raw blocks: all required paths present, the temperature buffer decodes to
`buf`, and the frame's channel is a key of the table with value `n`. -/
def FrameShape (j : XtJson) (pd : ProcessedData) (rtd : ResampledTempData) (sig : SignalObj)
    (dz : ℚ) (fep : Nat) (dat buf : List Nat) (tbl : List (Nat × Nat)) (n : Nat) : Prop :=
  j.processed_data = some pd ∧ pd.resampled_temperature_data = some rtd ∧
    rtd.dz = some dz ∧ rtd.first_external_point = some fep ∧ rtd.signal = some sig ∧
    sig.Data = some dat ∧ decodeSignalBuffer dat = Except.ok buf ∧
    tbl.lookup (pd.forward_channel.getD 0 + 1) = some n

instance (j : XtJson) (pd : ProcessedData) (rtd : ResampledTempData) (sig : SignalObj)
    (dz : ℚ) (fep : Nat) (dat buf : List Nat) (tbl : List (Nat × Nat)) (n : Nat) :
    Decidable (FrameShape j pd rtd sig dz fep dat buf tbl n) := by
  unfold FrameShape; infer_instance

/-- Concrete frame for the C9 witness: required structure present except
that `dz` is missing. -/
def w9Rtd : ResampledTempData :=
  { dz := none, first_external_point := some 0, signal := none }

def w9Pd : ProcessedData :=
  { forward_channel := none, resampled_temperature_data := some w9Rtd,
    resampled_forward_raw_data := none, resampled_reverse_raw_data := none,
    number_of_channels := none }

def w9Json : XtJson := { processed_data := some w9Pd, date_time := none }

/-- Concrete frame for the C10 witness: a frame whose `forward channel`
is `4`, so the exposed channel `5` is not a key of the default table. -/
def w10Rtd : ResampledTempData :=
  { dz := some 1, first_external_point := some 0, signal := none }

def w10Pd : ProcessedData :=
  { forward_channel := some 4, resampled_temperature_data := some w10Rtd,
    resampled_forward_raw_data := none, resampled_reverse_raw_data := none,
    number_of_channels := none }

def w10Json : XtJson := { processed_data := some w10Pd, date_time := none }

/-- Concrete counterexample frame for C3/C4: the decoded temperature
buffer holds a single float32 (`1.0f`, base64 `AACAPw==`), but
`first_external_point = 1` and the table assigns 3 external points. -/
def shortData : List Nat := [65, 65, 67, 65, 80, 119, 61, 61]

def shortSig : SignalObj := { Data := some shortData }

def shortRtd : ResampledTempData :=
  { dz := some 1, first_external_point := some 1, signal := some shortSig }

def shortPd : ProcessedData :=
  { forward_channel := some 0, resampled_temperature_data := some shortRtd,
    resampled_forward_raw_data := none, resampled_reverse_raw_data := none,
    number_of_channels := none }

def shortFrame : XtJson := { processed_data := some shortPd, date_time := none }

/-- A channel-points table assigning 3 external points to channel 1. -/
def smallTable : List (Nat × Nat) := [(1, 3)]

/-- Concrete well-formed frame for the C3/C4 witnesses: four float32
samples (`1.0f` each), `dz = 2`, `first_external_point = 1`, 3 external
points — the buffer reaches past the trim window. -/
def wfWords : List Nat := [1065353216, 1065353216, 1065353216, 1065353216]

def wfData : List Nat := b64encodeBytes (wordsToBytesLE wfWords)

def wfSig : SignalObj := { Data := some wfData }

def wfRtd : ResampledTempData :=
  { dz := some 2, first_external_point := some 1, signal := some wfSig }

def wfPd : ProcessedData :=
  { forward_channel := some 0, resampled_temperature_data := some wfRtd,
    resampled_forward_raw_data := none, resampled_reverse_raw_data := none,
    number_of_channels := none }

def wfJson : XtJson := { processed_data := some wfPd, date_time := none }

/-- The decoder's output on `wfJson` with `trim=true` (extracted from the
run itself; concretely `temp_data = [1065353216, 1065353216, 1065353216]`
and `distance = [0, 2, 4]`). -/
def wfResult : ParseResult :=
  match parse_xt_json wfJson "wf.xt" smallTable false true with
  | Except.ok r => r
  | Except.error _ =>
      { metadata :=
          { channel := 0, dz := 0, first_external_point := 0, filename := "",
            datetime := none, n_external_points := 0, external_length := 0,
            total_length := 0 },
        temp_data := [], distance := [], raw_fwd := none, raw_rev := none,
        raw_data := none }

/-! ### Claim C2 -/
/-- Frame with a forward raw block present (same 1-float buffer as the
temperature signal). -/
def c2RawBlock : RawBlock := { signal := some shortSig }

def c2Pd : ProcessedData :=
  { forward_channel := some 0, resampled_temperature_data := some shortRtd,
    resampled_forward_raw_data := some c2RawBlock,
    resampled_reverse_raw_data := none, number_of_channels := none }

def c2Json : XtJson := { processed_data := some c2Pd, date_time := none }

/-- Frame for the C8 counterexample: empty temperature buffer (`N = 0`)
and empty forward raw buffer (length `2 * N = 0`), declared
`number of channels = 2`. -/
def c8zSig : SignalObj := { Data := some [] }

def c8zBlock : RawBlock := { signal := some c8zSig }

def c8zRtd : ResampledTempData :=
  { dz := some 1, first_external_point := some 0, signal := some c8zSig }

def c8zPd : ProcessedData :=
  { forward_channel := some 0, resampled_temperature_data := some c8zRtd,
    resampled_forward_raw_data := some c8zBlock,
    resampled_reverse_raw_data := none, number_of_channels := some 2 }

def c8zJson : XtJson := { processed_data := some c8zPd, date_time := none }

/-- Frame for the C8 witness: temperature buffer of one float (`N = 1`),
forward raw buffer of two float32 words (bit patterns 5 and 6), declared
`number of channels = 2`. -/
def c8wData : List Nat := b64encodeBytes (wordsToBytesLE [5, 6])

def c8wSig : SignalObj := { Data := some c8wData }

def c8wBlock : RawBlock := { signal := some c8wSig }

def c8wPd : ProcessedData :=
  { forward_channel := some 0, resampled_temperature_data := some shortRtd,
    resampled_forward_raw_data := some c8wBlock,
    resampled_reverse_raw_data := none, number_of_channels := some 2 }

def c8wJson : XtJson := { processed_data := some c8wPd, date_time := none }

/-- The decoder's output on `c8wJson` (concretely
`raw_fwd = two [[5], [6]]`). -/
def c8wResult : ParseResult :=
  match parse_xt_json c8wJson "c8w.xt" smallTable false true with
  | Except.ok r => r
  | Except.error _ =>
      { metadata :=
          { channel := 0, dz := 0, first_external_point := 0, filename := "",
            datetime := none, n_external_points := 0, external_length := 0,
            total_length := 0 },
        temp_data := [], distance := [], raw_fwd := none, raw_rev := none,
        raw_data := none }

/-- State for the C5 counterexample and witness. -/
def c5St : FetchState := { next_date := some 100, last_date := some 50, json_data := [] }

/-- A page whose `next` field is absent and whose `data` is empty. -/
def c5Page : Page := { data := [], next := none }

/-- Non-empty page with an absent `next`, for the C5 witness. -/
def c5wPage : Page := { data := [{ sampleTime := 7, rawData := "x" }], next := none }

/-- Pages and state for the C6 counterexample: the caller starts the
stream at cursor 100, but the API returns a page whose records (and
continuation 6 ≥ its last record's `sampleTime` 5) lie before the cursor —
the claimed hypothesis holds, yet the second fetch uses cursor 6 < 100. -/
def c6St : FetchState := { next_date := some 100, last_date := none, json_data := [] }

def c6P1 : Page :=
  { data := [{ sampleTime := 5, rawData := "y" }],
    next := some { parameters := some { dateFrom := some 6 } } }

def c6P2 : Page := { data := [], next := none }

/-- Pages and state for the C6 witness. -/
def c6wSt : FetchState := { next_date := some 1, last_date := none, json_data := [] }

def c6wP1 : Page :=
  { data := [{ sampleTime := 2, rawData := "z" }],
    next := some { parameters := some { dateFrom := some 3 } } }

def c6wP2 : Page :=
  { data := [{ sampleTime := 4, rawData := "z" }],
    next := some { parameters := some { dateFrom := some 5 } } }

/-! ### Theorems -/

@[simp] theorem getKey_some {α : Type} (a : α) : getKey (some a) = Except.ok a := rfl

@[simp] theorem getKey_none {α : Type} : getKey (none : Option α) = Except.error PyError.keyError := rfl

/-! ### Round-trip lemmas for the codec -/
theorem charToSextet_sextetToChar : ∀ s < 64, charToSextet (sextetToChar s) = some s := by
  decide

theorem sextetToChar_ne_61 : ∀ s < 64, sextetToChar s ≠ 61 := by
  decide

theorem wordsToBytesLE_lt (ws : List Nat) : ∀ b ∈ wordsToBytesLE ws, b < 256 := by
  induction ws with
  | nil => intro b hb; simp [wordsToBytesLE] at hb
  | cons w ws ih =>
    intro b hb
    simp only [wordsToBytesLE, List.mem_cons] at hb
    rcases hb with h | h | h | h | h
    · omega
    · omega
    · omega
    · omega
    · exact ih b h

theorem wordsToBytesLE_length (ws : List Nat) :
    (wordsToBytesLE ws).length = 4 * ws.length := by
  induction ws with
  | nil => rfl
  | cons w ws ih => simp [wordsToBytesLE, ih]; omega

theorem b64decodeStr_b64encodeBytes :
    ∀ (bs : List Nat), (∀ b ∈ bs, b < 256) → b64decodeStr (b64encodeBytes bs) = Except.ok bs := by
  intro bs
  induction bs using b64encodeBytes.induct with
  | case1 => intro _; rfl
  | case2 a =>
    intro h
    have ha : a < 256 := h a (by simp)
    have e1 : charToSextet (sextetToChar (a / 4)) = some (a / 4) :=
      charToSextet_sextetToChar _ (by omega)
    have e2 : charToSextet (sextetToChar (a % 4 * 16)) = some (a % 4 * 16) :=
      charToSextet_sextetToChar _ (by omega)
    simp only [b64encodeBytes, b64decodeStr, e1, e2, and_self, if_true, ite_true,
      Except.ok.injEq, List.cons.injEq, and_true, if_pos]
    omega
  | case3 a b =>
    intro h
    have ha : a < 256 := h a (by simp)
    have hb : b < 256 := h b (by simp)
    have e1 : charToSextet (sextetToChar (a / 4)) = some (a / 4) :=
      charToSextet_sextetToChar _ (by omega)
    have e2 : charToSextet (sextetToChar (a % 4 * 16 + b / 16)) = some (a % 4 * 16 + b / 16) :=
      charToSextet_sextetToChar _ (by omega)
    have n1 : ¬ (sextetToChar (b % 16 * 4) = 61) := sextetToChar_ne_61 _ (by omega)
    have e3 : charToSextet (sextetToChar (b % 16 * 4)) = some (b % 16 * 4) :=
      charToSextet_sextetToChar _ (by omega)
    simp only [b64encodeBytes, b64decodeStr, e1, e2, e3, n1, if_false, ite_false,
      ite_true, Except.ok.injEq, List.cons.injEq, and_true, if_pos]
    omega
  | case4 a b c rest ih =>
    intro h
    have ha : a < 256 := h a (by simp)
    have hb : b < 256 := h b (by simp)
    have hc : c < 256 := h c (by simp)
    have hrest : ∀ x ∈ rest, x < 256 := fun x hx => h x (by simp [hx])
    have e1 : charToSextet (sextetToChar (a / 4)) = some (a / 4) :=
      charToSextet_sextetToChar _ (by omega)
    have e2 : charToSextet (sextetToChar (a % 4 * 16 + b / 16)) = some (a % 4 * 16 + b / 16) :=
      charToSextet_sextetToChar _ (by omega)
    have n1 : ¬ (sextetToChar (b % 16 * 4 + c / 64) = 61) := sextetToChar_ne_61 _ (by omega)
    have e3 : charToSextet (sextetToChar (b % 16 * 4 + c / 64)) = some (b % 16 * 4 + c / 64) :=
      charToSextet_sextetToChar _ (by omega)
    have n2 : ¬ (sextetToChar (c % 64) = 61) := sextetToChar_ne_61 _ (by omega)
    have e4 : charToSextet (sextetToChar (c % 64)) = some (c % 64) :=
      charToSextet_sextetToChar _ (by omega)
    simp only [b64encodeBytes, b64decodeStr, e1, e2, e3, e4, n1, n2, if_false, ite_false,
      ih hrest, Except.ok.injEq, List.cons.injEq]
    refine ⟨by omega, by omega, by omega, trivial⟩

theorem bytesToWordsLE_wordsToBytesLE (ws : List Nat) (h : ∀ w ∈ ws, w < 4294967296) :
    bytesToWordsLE (wordsToBytesLE ws) = ws := by
  induction ws with
  | nil => rfl
  | cons w ws ih =>
    have hw : w < 4294967296 := h w (List.mem_cons_self w ws)
    simp only [wordsToBytesLE, bytesToWordsLE]
    have h1 : w % 256 + w / 256 % 256 * 256 + w / 65536 % 256 * 65536 +
        w / 16777216 % 256 * 16777216 = w := by omega
    rw [h1, ih (fun x hx => h x (List.mem_cons_of_mem w hx))]

/-! ### Supporting lemmas -/
theorem mem_of_getLastOpt {α : Type} {l : List α} {a : α} (h : l.getLast? = some a) :
    a ∈ l := by
  have hne : l ≠ [] := by intro e; subst e; simp at h
  rw [List.getLast?_eq_getLast_of_ne_nil hne] at h
  cases h
  exact List.getLast_mem hne

theorem processPage_nil {s : FetchState × Bool} {p : Page} (h : p.data = []) :
    processPage s p = s := by
  simp [processPage, h]

theorem foldl_scanRecord_next_last (page : Page) :
    ∀ (l : List RawRecord) (s : FetchState × Bool) (r : RawRecord),
      l.getLast? = some r →
      (l.foldl (scanRecord page) s).1.next_date = extractNext page ∧
      (l.foldl (scanRecord page) s).1.last_date = some r.sampleTime := by
  intro l
  induction l with
  | nil => intro s r hr; simp at hr
  | cons a t ih =>
    intro s r hr
    cases t with
    | nil =>
      rw [List.getLast?_singleton] at hr
      cases hr
      simp [scanRecord]
    | cons b t2 =>
      rw [List.getLast?_cons_cons] at hr
      simp only [List.foldl]
      exact ih (scanRecord page s a) r hr

theorem processPage_next_last {st : FetchState} {b : Bool} {p : Page} {r : RawRecord}
    (h : p.data.getLast? = some r) :
    (processPage (st, b) p).1.next_date = extractNext p ∧
    (processPage (st, b) p).1.last_date = some r.sampleTime :=
  foldl_scanRecord_next_last p p.data (st, b) r h

theorem foldl_scanRecord_found_indep (page : Page) :
    ∀ (l : List RawRecord) (st : FetchState) (b b' : Bool),
      (l.foldl (scanRecord page) (st, b)).1 = (l.foldl (scanRecord page) (st, b')).1 := by
  intro l
  induction l with
  | nil => intro st b b'; rfl
  | cons a t ih =>
    intro st b b'
    simp only [List.foldl, scanRecord]
    exact ih _ _ _

/-- The `found_data` flag does not influence the fetcher-state component of
a page scan (it only decides when `_fetch_next` stops issuing further
fetches). -/
theorem processPage_found_indep (p : Page) (st : FetchState) (b b' : Bool) :
    (processPage (st, b) p).1 = (processPage (st, b') p).1 :=
  foldl_scanRecord_found_indep p p.data st b b'

@[simp] theorem exceptBindOk {α β : Type} (a : α) (f : α → Except PyError β) :
    (Except.ok a : Except PyError α) >>= f = f a := rfl

@[simp] theorem exceptBindError {α β : Type} (e : PyError) (f : α → Except PyError β) :
    (Except.error e : Except PyError α) >>= f = Except.error e := rfl

theorem applyIncludeRaw_fields (ir : Bool) (res : ParseResult) :
    (applyIncludeRaw ir res).metadata = res.metadata ∧
    (applyIncludeRaw ir res).temp_data = res.temp_data ∧
    (applyIncludeRaw ir res).distance = res.distance ∧
    (applyIncludeRaw ir res).raw_fwd = res.raw_fwd ∧
    (applyIncludeRaw ir res).raw_rev = res.raw_rev := by
  unfold applyIncludeRaw
  dsimp only
  split_ifs <;> exact ⟨rfl, rfl, rfl, rfl, rfl⟩

theorem parse_xt_json_core
    {j : XtJson} {pd : ProcessedData} {rtd : ResampledTempData} {sig : SignalObj}
    {dz : ℚ} {fep : Nat} {dat buf : List Nat} {n : Nat}
    (fn : String) (tbl : List (Nat × Nat)) (ir tr : Bool)
    (hpd : j.processed_data = some pd)
    (hrtd : pd.resampled_temperature_data = some rtd)
    (hdz : rtd.dz = some dz)
    (hfep : rtd.first_external_point = some fep)
    (hsig : rtd.signal = some sig)
    (hdat : sig.Data = some dat)
    (hdec : decodeSignalBuffer dat = Except.ok buf)
    (hlk : tbl.lookup (pd.forward_channel.getD 0 + 1) = some n) :
    parse_xt_json j fn tbl ir tr =
      extractRawFwd pd buf.length (applyIncludeRaw ir
        { metadata :=
            { channel := pd.forward_channel.getD 0 + 1, dz := dz,
              first_external_point := fep, filename := fn,
              datetime := j.date_time, n_external_points := n,
              external_length := (n : ℚ) * dz,
              total_length := (n : ℚ) * dz + (fep : ℚ) * dz },
          temp_data := if tr then (buf.drop fep).take (fep + n - fep) else buf,
          distance :=
            if tr then
              (List.range' fep (fep + n - fep)).map
                (fun i : Nat => ((i : ℚ) - (fep : ℚ)) * dz)
            else (List.range buf.length).map (fun i : Nat => (i : ℚ) * dz),
          raw_fwd := none, raw_rev := none, raw_data := none }) >>=
        fun res => extractRawRev pd buf.length res := by
  unfold parse_xt_json
  rw [hpd]
  simp only [getKey_some, exceptBindOk]
  rw [hrtd]
  simp only [getKey_some, exceptBindOk]
  rw [hdz]
  simp only [getKey_some, exceptBindOk]
  rw [hfep]
  simp only [getKey_some, exceptBindOk]
  rw [hlk]
  simp only [getKey_some, exceptBindOk]
  rw [hsig]
  simp only [getKey_some, exceptBindOk]
  rw [hdat]
  simp only [getKey_some, exceptBindOk]
  rw [hdec]
  simp only [exceptBindOk]

theorem extractRawFwd_fields {pd : ProcessedData} {n : Nat} {res r : ParseResult}
    (h : extractRawFwd pd n res = Except.ok r) :
    r.metadata = res.metadata ∧ r.temp_data = res.temp_data ∧
    r.distance = res.distance ∧ r.raw_data = res.raw_data ∧
    r.raw_rev = res.raw_rev := by
  unfold extractRawFwd at h
  split at h
  · cases h; exact ⟨rfl, rfl, rfl, rfl, rfl⟩
  · simp only [bind, Except.bind, getKey] at h
    repeat' split at h
    all_goals first
      | exact Except.noConfusion h
      | (cases h; exact ⟨rfl, rfl, rfl, rfl, rfl⟩)

theorem extractRawRev_fields {pd : ProcessedData} {n : Nat} {res r : ParseResult}
    (h : extractRawRev pd n res = Except.ok r) :
    r.metadata = res.metadata ∧ r.temp_data = res.temp_data ∧
    r.distance = res.distance ∧ r.raw_data = res.raw_data ∧
    r.raw_fwd = res.raw_fwd := by
  unfold extractRawRev at h
  split at h
  · cases h; exact ⟨rfl, rfl, rfl, rfl, rfl⟩
  · simp only [bind, Except.bind, getKey] at h
    repeat' split at h
    all_goals first
      | exact Except.noConfusion h
      | (cases h; exact ⟨rfl, rfl, rfl, rfl, rfl⟩)

/-! ### Claim C9 -/
/-- C9: for every input frame in which `dz` or `first external point` is
missing from `processed data.resampled temperature data`, the decoder
fails with a `KeyError` (for any file name, table and flag values) rather
than returning a `ParsedFrame`. -/
theorem claim9_missing_field
    {j : XtJson} {pd : ProcessedData} {rtd : ResampledTempData}
    (fn : String) (tbl : List (Nat × Nat)) (ir tr : Bool)
    (hpd : j.processed_data = some pd)
    (hrtd : pd.resampled_temperature_data = some rtd)
    (hmiss : rtd.dz = none ∨ rtd.first_external_point = none) :
    parse_xt_json j fn tbl ir tr = Except.error PyError.keyError := by
  unfold parse_xt_json
  rw [hpd]
  simp only [getKey_some, exceptBindOk]
  rw [hrtd]
  simp only [getKey_some, exceptBindOk]
  rcases hmiss with h | h
  · rw [h]
    simp only [getKey_none, exceptBindError]
  · cases hdz : rtd.dz with
    | none =>
      simp only [getKey_none, exceptBindError]
    | some d =>
      simp only [getKey_some, exceptBindOk]
      rw [h]
      simp only [getKey_none, exceptBindError]

/-- C9 witness: the theorem applied at a concrete frame with `dz` absent. -/
theorem claim9_witness :
    (w9Json.processed_data = some w9Pd ∧ w9Pd.resampled_temperature_data = some w9Rtd ∧
        (w9Rtd.dz = none ∨ w9Rtd.first_external_point = none)) ∧
      parse_xt_json w9Json "frame.xt" defaultChannelPoints false true =
        Except.error PyError.keyError :=
  ⟨⟨rfl, rfl, Or.inl rfl⟩,
    claim9_missing_field "frame.xt" defaultChannelPoints false true rfl rfl (Or.inl rfl)⟩

/-! ### Claim C10 -/
/-- C10: for every input frame whose exposed channel number
(`forward channel + 1`, or `1` when `forward channel` is absent) is not a
key of the channel-to-external-point-count table, the decoder raises a
`KeyError` and produces no `ParsedFrame`. -/
theorem claim10_unknown_channel
    {j : XtJson} {pd : ProcessedData} {rtd : ResampledTempData} {dz : ℚ} {fep : Nat}
    (fn : String) (tbl : List (Nat × Nat)) (ir tr : Bool)
    (hpd : j.processed_data = some pd)
    (hrtd : pd.resampled_temperature_data = some rtd)
    (hdz : rtd.dz = some dz)
    (hfep : rtd.first_external_point = some fep)
    (hlk : tbl.lookup (pd.forward_channel.getD 0 + 1) = none) :
    parse_xt_json j fn tbl ir tr = Except.error PyError.keyError := by
  unfold parse_xt_json
  rw [hpd]
  simp only [getKey_some, exceptBindOk]
  rw [hrtd]
  simp only [getKey_some, exceptBindOk]
  rw [hdz]
  simp only [getKey_some, exceptBindOk]
  rw [hfep]
  simp only [getKey_some, exceptBindOk]
  rw [hlk]
  simp only [getKey_none, exceptBindError]

/-- C10 witness: the theorem applied at a concrete frame whose channel 5
is not a key of the default table. -/
theorem claim10_witness :
    (w10Json.processed_data = some w10Pd ∧ w10Pd.resampled_temperature_data = some w10Rtd ∧
        w10Rtd.dz = some 1 ∧ w10Rtd.first_external_point = some 0 ∧
        defaultChannelPoints.lookup (w10Pd.forward_channel.getD 0 + 1) = none) ∧
      parse_xt_json w10Json "frame.xt" defaultChannelPoints false true =
        Except.error PyError.keyError :=
  ⟨⟨rfl, rfl, rfl, rfl, by decide⟩,
    claim10_unknown_channel "frame.xt" defaultChannelPoints false true rfl rfl rfl rfl
      (by decide)⟩

/-! ### Claim C7 -/
/-- C7: for every finite sequence of float32 values (represented by their
32-bit patterns), serializing them as contiguous little-endian 4-byte
words, base64-encoding those bytes, and running the result through the
frame decoder's buffer decoding reproduces the original sequence
bit-exactly. -/
theorem claim7_roundtrip (ws : List Nat) (hw : ∀ w ∈ ws, w < 4294967296) :
    decodeSignalBuffer (b64encodeBytes (wordsToBytesLE ws)) = Except.ok ws := by
  unfold decodeSignalBuffer
  rw [b64decodeStr_b64encodeBytes _ (wordsToBytesLE_lt ws)]
  simp only [exceptBindOk]
  unfold frombufferF4LE
  rw [wordsToBytesLE_length]
  rw [if_pos (by omega)]
  rw [bytesToWordsLE_wordsToBytesLE ws hw]

/-- C7 witness: the round-trip at the concrete two-float sequence
`[1.0f, 0.0f]` (bit patterns `[1065353216, 0]`). -/
theorem claim7_witness :
    (∀ w ∈ [1065353216, 0], w < 4294967296) ∧
      decodeSignalBuffer (b64encodeBytes (wordsToBytesLE [1065353216, 0])) =
        Except.ok [1065353216, 0] :=
  ⟨by decide, claim7_roundtrip [1065353216, 0] (by decide)⟩

/-! ### Claims C3 and C4 -/
/-- Tail of `parse_xt_json` after the temperature/distance computation:
the raw-extraction blocks never touch `temp_data`, `distance` or
`metadata`. -/
theorem parse_tail_fields {pd : ProcessedData} {len : Nat} {res r : ParseResult}
    (h : (extractRawFwd pd len res >>= fun x => extractRawRev pd len x) = Except.ok r) :
    r.temp_data = res.temp_data ∧ r.distance = res.distance ∧ r.metadata = res.metadata := by
  cases hf : extractRawFwd pd len res with
  | error e => rw [hf] at h; simp at h
  | ok mid =>
    rw [hf] at h
    simp only [exceptBindOk] at h
    obtain ⟨m1, m2, m3, _, _⟩ := extractRawRev_fields h
    obtain ⟨f1, f2, f3, _, _⟩ := extractRawFwd_fields hf
    exact ⟨m2.trans f2, m3.trans f3, m1.trans f1⟩

theorem distance_trim_entries (fep n : Nat) (dz : ℚ) :
    ∀ i < n,
      ((List.range' fep n).map (fun k : Nat => ((k : ℚ) - (fep : ℚ)) * dz)).getD i 0 =
        (i : ℚ) * dz := by
  intro i hi
  have hlen : i < ((List.range' fep n).map (fun k : Nat => ((k : ℚ) - (fep : ℚ)) * dz)).length := by
    simp [List.length_range', hi]
  rw [List.getD_eq_getElem _ _ hlen, List.getElem_map, List.getElem_range']
  push_cast
  ring

theorem distance_full_entries (m : Nat) (dz : ℚ) :
    ∀ i < m, ((List.range m).map (fun k : Nat => (k : ℚ) * dz)).getD i 0 = (i : ℚ) * dz := by
  intro i hi
  have hlen : i < ((List.range m).map (fun k : Nat => (k : ℚ) * dz)).length := by
    simp [List.length_range, hi]
  rw [List.getD_eq_getElem _ _ hlen, List.getElem_map, List.getElem_range]

/-- C3 counterexample: the decoder accepts `shortFrame` with `trim=true`,
yet returns `temp_data` of length 0 (the Python slice `[1:4]` of a
1-element buffer is empty) next to a `distance` of length 3 — the claimed
invariant `len(temp_data) == len(distance)` fails. -/
theorem claim3_counterexample :
    (parse_xt_json shortFrame "short.xt" smallTable false true).map
        (fun r => (r.temp_data.length, r.distance.length)) = Except.ok (0, 3) ∧
      (0 : Nat) ≠ 3 :=
  ⟨by decide, by decide⟩

/-- C3 (amended): for every frame the decoder accepts,
`len(temp_data) = len(distance)` — with `trim=true` under the proviso
(forced by the Python slice clamping exhibited by the counterexample) that
the decoded buffer reaches past the trim window,
`first_external_point + n_external_points ≤ len(buffer)`; and with
`trim=true` the first distance entry, whenever distance is non-empty, is
0. -/
theorem claim3_len_eq_amended
    {j : XtJson} {pd : ProcessedData} {rtd : ResampledTempData} {sig : SignalObj}
    {dz : ℚ} {fep : Nat} {dat buf : List Nat} {n : Nat}
    {fn : String} {tbl : List (Nat × Nat)} {ir tr : Bool} {r : ParseResult}
    (hshape : FrameShape j pd rtd sig dz fep dat buf tbl n)
    (hok : parse_xt_json j fn tbl ir tr = Except.ok r)
    (hbuf : tr = true → fep + n ≤ buf.length) :
    r.temp_data.length = r.distance.length ∧
      (tr = true → 0 < r.distance.length → r.distance.head? = some 0) := by
  obtain ⟨hpd, hrtd, hdz, hfep, hsig, hdat, hdec, hlk⟩ := hshape
  rw [parse_xt_json_core fn tbl ir tr hpd hrtd hdz hfep hsig hdat hdec hlk] at hok
  obtain ⟨ht, hd, _⟩ := parse_tail_fields hok
  obtain ⟨_, at2, at3, _, _⟩ := applyIncludeRaw_fields ir _
  rw [at2] at ht
  rw [at3] at hd
  dsimp only at ht hd
  rw [Nat.add_sub_cancel_left] at ht hd
  cases tr with
  | false =>
    refine ⟨?_, by intro h; cases h⟩
    rw [ht, hd]
    simp
  | true =>
    have hb : fep + n ≤ buf.length := hbuf rfl
    simp only [if_true, ite_true] at ht hd
    constructor
    · rw [ht, hd]
      simp only [List.length_take, List.length_drop, List.length_map, List.length_range']
      omega
    · intro _ h0
      rw [hd] at h0 ⊢
      cases n with
      | zero => simp at h0
      | succ m =>
        rw [List.range'_succ]
        simp

/-- C3 witness: the amended theorem applied at the concrete frame
`wfJson`. -/
theorem claim3_witness :
    (FrameShape wfJson wfPd wfRtd wfSig 2 1 wfData wfWords smallTable 3 ∧
        parse_xt_json wfJson "wf.xt" smallTable false true = Except.ok wfResult ∧
        (true = true → 1 + 3 ≤ wfWords.length) ∧
        (parse_xt_json wfJson "wf.xt" smallTable false true).map
          (fun r => (r.temp_data, r.distance.length)) =
          Except.ok ([1065353216, 1065353216, 1065353216], 3)) ∧
      wfResult.temp_data.length = wfResult.distance.length ∧
        (true = true → 0 < wfResult.distance.length → wfResult.distance.head? = some 0) :=
  ⟨⟨⟨rfl, rfl, rfl, rfl, rfl, rfl, by decide, by decide⟩, rfl, by decide, by decide⟩,
    @claim3_len_eq_amended wfJson wfPd wfRtd wfSig 2 1 wfData wfWords 3 "wf.xt" smallTable
      false true wfResult ⟨rfl, rfl, rfl, rfl, rfl, rfl, by decide, by decide⟩ rfl
      (by decide)⟩

/-- C4 counterexample: on `shortFrame` with `trim=true` the decoder
accepts the frame yet returns a `temp_data` of length 0 (the clamped
Python slice), which differs from `n_external_points[channel] = 3` — the
claimed `len(temp_data) == n_external_points[channel]` fails. -/
theorem claim4_counterexample :
    (parse_xt_json shortFrame "short.xt" smallTable false true).map
        (fun r => r.temp_data.length) = Except.ok 0 ∧
      smallTable.lookup 1 = some 3 ∧ (0 : Nat) ≠ 3 :=
  ⟨by decide, by decide, by decide⟩

/-- C4 (amended): for every frame the decoder accepts — with `trim=true`,
`temp_data` is the (clamping) Python slice
`[first_external_point, first_external_point + n_external_points)` of the
decoded buffer, its length equals `n_external_points` under the proviso
(forced by the counterexample) that the buffer reaches past the trim
window, and `distance[i] = i * dz` over the trimmed index range; with
`trim=false`, `temp_data` is the entire decoded buffer and
`distance[i] = i * dz` over the full range. -/
theorem claim4_trim_slice_amended
    {j : XtJson} {pd : ProcessedData} {rtd : ResampledTempData} {sig : SignalObj}
    {dz : ℚ} {fep : Nat} {dat buf : List Nat} {n : Nat}
    {fn : String} {tbl : List (Nat × Nat)} {ir tr : Bool} {r : ParseResult}
    (hshape : FrameShape j pd rtd sig dz fep dat buf tbl n)
    (hok : parse_xt_json j fn tbl ir tr = Except.ok r) :
    (tr = true →
        r.temp_data = (buf.drop fep).take n ∧
        (fep + n ≤ buf.length → r.temp_data.length = n) ∧
        ∀ i < r.distance.length, r.distance.getD i 0 = (i : ℚ) * dz) ∧
      (tr = false →
        r.temp_data = buf ∧
        r.distance.length = buf.length ∧
        ∀ i < r.distance.length, r.distance.getD i 0 = (i : ℚ) * dz) := by
  obtain ⟨hpd, hrtd, hdz, hfep, hsig, hdat, hdec, hlk⟩ := hshape
  rw [parse_xt_json_core fn tbl ir tr hpd hrtd hdz hfep hsig hdat hdec hlk] at hok
  obtain ⟨ht, hd, _⟩ := parse_tail_fields hok
  obtain ⟨_, at2, at3, _, _⟩ := applyIncludeRaw_fields ir _
  rw [at2] at ht
  rw [at3] at hd
  dsimp only at ht hd
  rw [Nat.add_sub_cancel_left] at ht hd
  cases tr with
  | false =>
    rw [if_neg (by decide)] at ht
    rw [if_neg (by decide)] at hd
    constructor
    · intro h; cases h
    · intro _
      refine ⟨ht, ?_, ?_⟩
      · rw [hd]; simp
      · intro i hi
        rw [hd] at hi ⊢
        refine distance_full_entries buf.length dz i ?_
        simpa using hi
  | true =>
    rw [if_pos rfl] at ht
    rw [if_pos rfl] at hd
    constructor
    · intro _
      refine ⟨ht, ?_, ?_⟩
      · intro hb
        rw [ht]
        simp only [List.length_take, List.length_drop]
        omega
      · intro i hi
        rw [hd] at hi ⊢
        refine distance_trim_entries fep n dz i ?_
        simpa [List.length_range'] using hi
    · intro h; cases h

/-- C4 witness: the amended theorem applied at the concrete frame
`wfJson` (with `trim=true`). -/
theorem claim4_witness :
    (FrameShape wfJson wfPd wfRtd wfSig 2 1 wfData wfWords smallTable 3 ∧
        parse_xt_json wfJson "wf.xt" smallTable false true = Except.ok wfResult) ∧
      ((true = true →
          wfResult.temp_data = (wfWords.drop 1).take 3 ∧
          (1 + 3 ≤ wfWords.length → wfResult.temp_data.length = 3) ∧
          ∀ i < wfResult.distance.length, wfResult.distance.getD i 0 = (i : ℚ) * 2) ∧
        (true = false →
          wfResult.temp_data = wfWords ∧
          wfResult.distance.length = wfWords.length ∧
          ∀ i < wfResult.distance.length, wfResult.distance.getD i 0 = (i : ℚ) * 2)) :=
  ⟨⟨⟨rfl, rfl, rfl, rfl, rfl, rfl, by decide, by decide⟩, rfl⟩,
    @claim4_trim_slice_amended wfJson wfPd wfRtd wfSig 2 1 wfData wfWords 3 "wf.xt"
      smallTable false true wfResult ⟨rfl, rfl, rfl, rfl, rfl, rfl, by decide, by decide⟩ rfl⟩

/-- C2: calling the decoder with `include_raw=true` on a frame that
carries forward raw data yields a result whose `raw_fwd` key is present
but whose `raw_data` key is ABSENT: the `include_raw` block (utils.py
lines 85-95) runs before the raw buffers are extracted (lines 97-119), so
it always sees an empty candidate dict and never inserts `raw_data` —
contradicting the function's own docstring ("raw_data: Raw signal data
(if include_raw is True)"). -/
theorem claim2_raw_data_never_included :
    (parse_xt_json c2Json "c2.xt" smallTable true true).map
        (fun r => (r.raw_data.isNone, r.raw_fwd.isSome)) = Except.ok (true, true) := by
  decide

/-! ### Claim C8 -/
/-- Unfolding of the forward raw extraction when the forward raw block is
present. -/
theorem extractRawFwd_some {pd : ProcessedData} {blk : RawBlock}
    (h : pd.resampled_forward_raw_data = some blk) (temp_len : Nat) (res : ParseResult) :
    extractRawFwd pd temp_len res = (do
      let sig ← getKey blk.signal
      let dat ← getKey sig.Data
      let raw_fwd ← decodeSignalBuffer dat
      if temp_len < raw_fwd.length then
        let channels := pd.number_of_channels.getD 2
        let rows ← npReshapeRows channels raw_fwd
        Except.ok { res with raw_fwd := some (RawArray.two rows) }
      else Except.ok { res with raw_fwd := some (RawArray.one raw_fwd) }) := by
  unfold extractRawFwd
  rw [h]

/-- C8 counterexample: at `N = 0` the forward raw buffer (length
`2 * N = 0`) is NOT longer than the temperature buffer, so the decoder
keeps it 1-D — it does not produce the claimed 2×N structure. -/
theorem claim8_counterexample :
    (parse_xt_json c8zJson "c8.xt" smallTable false false).map (fun r => r.raw_fwd) =
        Except.ok (some (RawArray.one [])) ∧
      ∀ rows : List (List Nat), RawArray.one [] ≠ RawArray.two rows :=
  ⟨by decide, fun _ h => RawArray.noConfusion h⟩

/-- C8 (amended): for every accepted frame whose decoded forward raw
buffer has length `2 * N` with temperature buffer length `N ≥ 1` and
declared `number of channels = 2`, the decoder produces a 2-row forward
raw structure `[buffer[0:N], buffer[N:2N]]`, and row `i`, column `j`
equals element `i * N + j` of the flat buffer.  (The counterexample forces
`N ≥ 1`: at `N = 0` the buffer is not longer than the temperature buffer
and stays 1-D.) -/
theorem claim8_reshape_amended
    {j : XtJson} {pd : ProcessedData} {rtd : ResampledTempData} {sig : SignalObj}
    {dz : ℚ} {fep : Nat} {dat buf : List Nat} {n : Nat}
    {blk : RawBlock} {rsig : SignalObj} {rdat rbuf : List Nat}
    {fn : String} {tbl : List (Nat × Nat)} {ir tr : Bool} {r : ParseResult}
    (hshape : FrameShape j pd rtd sig dz fep dat buf tbl n)
    (hblk : pd.resampled_forward_raw_data = some blk)
    (hrsig : blk.signal = some rsig)
    (hrdat : rsig.Data = some rdat)
    (hrdec : decodeSignalBuffer rdat = Except.ok rbuf)
    (hlen : rbuf.length = 2 * buf.length)
    (hch : pd.number_of_channels.getD 2 = 2)
    (hN : 1 ≤ buf.length)
    (hok : parse_xt_json j fn tbl ir tr = Except.ok r) :
    r.raw_fwd = some (RawArray.two [rbuf.take buf.length, rbuf.drop buf.length]) ∧
      (∀ k < buf.length, (rbuf.take buf.length)[k]? = rbuf[0 * buf.length + k]?) ∧
      (∀ k < buf.length, (rbuf.drop buf.length)[k]? = rbuf[1 * buf.length + k]?) := by
  obtain ⟨hpd, hrtd, hdz, hfep, hsig, hdat, hdec, hlk⟩ := hshape
  rw [parse_xt_json_core fn tbl ir tr hpd hrtd hdz hfep hsig hdat hdec hlk] at hok
  rw [extractRawFwd_some hblk] at hok
  rw [hrsig] at hok
  simp only [getKey_some, exceptBindOk] at hok
  rw [hrdat] at hok
  simp only [getKey_some, exceptBindOk] at hok
  rw [hrdec] at hok
  simp only [exceptBindOk] at hok
  rw [if_pos (by omega)] at hok
  rw [hch] at hok
  have hr2 : npReshapeRows 2 rbuf =
      Except.ok [rbuf.take buf.length, rbuf.drop buf.length] := by
    unfold npReshapeRows
    rw [if_neg (by omega)]
    have hdiv : rbuf.length / 2 = buf.length := by omega
    rw [hdiv]
    have hs : splitRows 2 buf.length rbuf =
        [rbuf.take buf.length, (rbuf.drop buf.length).take buf.length] := rfl
    have hle : (rbuf.drop buf.length).length ≤ buf.length := by
      rw [List.length_drop]; omega
    rw [hs, List.take_of_length_le hle]
  rw [hr2] at hok
  simp only [exceptBindOk] at hok
  obtain ⟨_, _, _, _, hraw⟩ := extractRawRev_fields hok
  refine ⟨by rw [hraw], ?_, ?_⟩
  · intro k hk
    rw [List.getElem?_take, if_pos hk]
    have he : 0 * buf.length + k = k := by omega
    rw [he]
  · intro k hk
    rw [List.getElem?_drop]
    have he : 1 * buf.length + k = buf.length + k := by omega
    rw [he]

/-- C8 witness: the amended theorem applied at the concrete frame
`c8wJson` with `N = 1`. -/
theorem claim8_witness :
    (FrameShape c8wJson c8wPd shortRtd shortSig 1 1 shortData [1065353216] smallTable 3 ∧
        c8wPd.resampled_forward_raw_data = some c8wBlock ∧
        c8wBlock.signal = some c8wSig ∧ c8wSig.Data = some c8wData ∧
        decodeSignalBuffer c8wData = Except.ok [5, 6] ∧
        ([5, 6] : List Nat).length = 2 * ([1065353216] : List Nat).length ∧
        c8wPd.number_of_channels.getD 2 = 2 ∧
        1 ≤ ([1065353216] : List Nat).length ∧
        parse_xt_json c8wJson "c8w.xt" smallTable false true = Except.ok c8wResult) ∧
      c8wResult.raw_fwd =
          some (RawArray.two [([5, 6] : List Nat).take 1, ([5, 6] : List Nat).drop 1]) ∧
        (∀ k < ([1065353216] : List Nat).length,
          (([5, 6] : List Nat).take 1)[k]? = ([5, 6] : List Nat)[0 * 1 + k]?) ∧
        (∀ k < ([1065353216] : List Nat).length,
          (([5, 6] : List Nat).drop 1)[k]? = ([5, 6] : List Nat)[1 * 1 + k]?) :=
  ⟨⟨⟨rfl, rfl, rfl, rfl, rfl, rfl, by decide, by decide⟩, rfl, rfl, rfl, by decide,
      by decide, rfl, by decide, rfl⟩,
    @claim8_reshape_amended c8wJson c8wPd shortRtd shortSig 1 1 shortData [1065353216] 3
      c8wBlock c8wSig c8wData [5, 6] "c8w.xt" smallTable false true c8wResult
      ⟨rfl, rfl, rfl, rfl, rfl, rfl, by decide, by decide⟩ rfl rfl rfl (by decide)
      (by decide) rfl (by decide) rfl⟩

/-! ### Claim C1 -/
/-- C1: the Raw Record Source half of the claim holds — a non-success
response (here status 500) yields `None` instead of raising — but the
Polling Cursor does NOT recover it in the Paging state: `_fetch_next`
immediately subscripts the `None` result (`result["data"]`, monitor_dts.py
lines 106-108) outside any try/except, so an uncaught `TypeError`
propagates out of `__next__` to the caller.  Evaluated here at a concrete
paging state and a single failed fetch. -/
theorem claim1_paging_typeError_on_fetch_failure :
    fetch_onc_realtime_data { status := 500, body := { data := [], next := none } } = none ∧
      pagingLoop { next_date := some 100, last_date := some 50, json_data := [] } false
          [fetch_onc_realtime_data { status := 500, body := { data := [], next := none } }] =
        ([{ dateFrom := some 100, rowLimit := 100, getLatest := false }],
          FetchOutcome.typeError
            { next_date := some 100, last_date := some 50, json_data := [] }) :=
  ⟨rfl, rfl⟩

/-! ### Claim C5 -/
/-- A Paging loop whose state already has no cursor exits immediately
without issuing a fetch. -/
theorem pagingLoop_none {st : FetchState} (h : st.next_date = none) (found : Bool)
    (oracle : List (Option Page)) :
    pagingLoop st found oracle = ([], FetchOutcome.ok st) := by
  obtain ⟨nd, ld, jd⟩ := st
  have h2 : nd = none := h
  subst h2
  cases oracle with
  | nil => rfl
  | cons r rest => rfl

/-- One step of the Paging loop on a successful fetch: issue the paging
request at the current cursor, scan the page, continue. -/
theorem pagingLoop_step_page (c : Nat) (ld : Option Nat) (jd : List String) (page : Page)
    (rest : List (Option Page)) :
    pagingLoop ⟨some c, ld, jd⟩ false (some page :: rest) =
      (⟨some c, 100, false⟩ ::
          (pagingLoop (processPage (⟨some c, ld, jd⟩, false) page).1
            (processPage (⟨some c, ld, jd⟩, false) page).2 rest).1,
        (pagingLoop (processPage (⟨some c, ld, jd⟩, false) page).1
            (processPage (⟨some c, ld, jd⟩, false) page).2 rest).2) := rfl

/-- One step of the Bootstrapping loop: issue the single-row probe keyed
on `last_date`, read the continuation out of the result, continue. -/
theorem bootstrapLoop_step (ld : Option Nat) (jd : List String) (r : Option Page)
    (rest : List (Option Page)) :
    bootstrapLoop ⟨none, ld, jd⟩ (r :: rest) =
      (⟨ld, 1, false⟩ :: (bootstrapLoop ⟨r.bind extractNext, ld, jd⟩ rest).1,
        (bootstrapLoop ⟨r.bind extractNext, ld, jd⟩ rest).2) := rfl

/-- The first request of a `_fetch_next` call entered with an unknown
cursor is the Bootstrapping probe: a single-row fetch keyed on
`last_date`. -/
theorem fetchNext_bootstrap_first (st : FetchState) (hn : st.next_date = none)
    (r2 : Option Page) (rest : List (Option Page)) :
    (fetchNext st (r2 :: rest)).1.head? = some ⟨st.last_date, 1, false⟩ := by
  obtain ⟨nd, ld, jd⟩ := st
  have h2 : nd = none := hn
  subst h2
  show (fetchNext ⟨none, ld, jd⟩ (r2 :: rest)).1.head? = some ⟨ld, 1, false⟩
  unfold fetchNext
  rw [bootstrapLoop_step]
  dsimp only
  cases hcase : (bootstrapLoop ⟨r2.bind extractNext, ld, jd⟩ rest).2.2 with
  | none => simp [hcase]
  | some rem => simp [hcase]

/-- C5 (amended): for every page whose `next` field is absent or malformed
AND whose `data` is non-empty, the stream's cursor becomes unknown without
raising to the caller (the Paging loop returns normally), `last_date`
becomes the last record's `sampleTime`, and the next `_fetch_next` call's
first fetch is the Bootstrapping probe (single-row, keyed on the last seen
`sampleTime`) rather than a Paging fetch.  (The counterexample forces the
non-empty-data proviso: an empty page leaves the cursor untouched.) -/
theorem claim5_cursor_degradation_amended
    (st : FetchState) (c : Nat) (page : Page) (lastRec : RawRecord)
    (rest oracle2 : List (Option Page)) (r2 : Option Page)
    (hc : st.next_date = some c)
    (hnext : extractNext page = none)
    (hlast : page.data.getLast? = some lastRec) :
    pagingLoop st false (some page :: rest) =
        ([⟨some c, 100, false⟩], FetchOutcome.ok (processPage (st, false) page).1) ∧
      (processPage (st, false) page).1.next_date = none ∧
      (processPage (st, false) page).1.last_date = some lastRec.sampleTime ∧
      (fetchNext (processPage (st, false) page).1 (r2 :: oracle2)).1.head? =
        some ⟨some lastRec.sampleTime, 1, false⟩ := by
  obtain ⟨hnd, hld⟩ := @processPage_next_last st false page lastRec hlast
  have hnd2 : (processPage (st, false) page).1.next_date = none := hnd.trans hnext
  refine ⟨?_, hnd2, hld, ?_⟩
  · obtain ⟨nd, ld, jd⟩ := st
    have h2 : nd = some c := hc
    subst h2
    rw [pagingLoop_step_page, pagingLoop_none hnd2]
  · rw [fetchNext_bootstrap_first _ hnd2, hld]

/-- C5 counterexample: a page with an absent `next` but EMPTY `data` does
not degrade the cursor — the per-record `try` that re-reads `next` never
runs, `next_date` stays `some 100`, and the stream's following fetch is
another Paging fetch (`row_limit = 100`), not a Bootstrapping probe. -/
theorem claim5_counterexample :
    extractNext c5Page = none ∧
      pagingLoop c5St false [some c5Page, some c5Page] =
        ([⟨some 100, 100, false⟩, ⟨some 100, 100, false⟩],
          FetchOutcome.outOfOracle c5St) ∧
      (processPage (c5St, false) c5Page).1.next_date = some 100 :=
  ⟨rfl, rfl, rfl⟩

/-- C5 witness: the amended theorem applied at the concrete paging state
`c5St` and page `c5wPage`. -/
theorem claim5_witness :
    (c5St.next_date = some 100 ∧ extractNext c5wPage = none ∧
        c5wPage.data.getLast? = some { sampleTime := 7, rawData := "x" }) ∧
      (pagingLoop c5St false [some c5wPage] =
          ([⟨some 100, 100, false⟩], FetchOutcome.ok (processPage (c5St, false) c5wPage).1) ∧
        (processPage (c5St, false) c5wPage).1.next_date = none ∧
        (processPage (c5St, false) c5wPage).1.last_date = some 7 ∧
        (fetchNext (processPage (c5St, false) c5wPage).1 [none]).1.head? =
          some ⟨some 7, 1, false⟩) :=
  ⟨⟨rfl, rfl, rfl⟩,
    claim5_cursor_degradation_amended c5St 100 c5wPage { sampleTime := 7, rawData := "x" }
      [] [] none rfl rfl rfl⟩

/-! ### Claim C6 -/
theorem streamCursors_cons_none {st : FetchState} (h : st.next_date = none)
    (p : Page) (ps : List Page) : streamCursors st (p :: ps) = [] := by
  obtain ⟨nd, ld, jd⟩ := st
  have h2 : nd = none := h
  subst h2
  rfl

theorem streamCursors_cons_some {st : FetchState} {c : Nat} (h : st.next_date = some c)
    (p : Page) (ps : List Page) :
    streamCursors st (p :: ps) = c :: streamCursors (processPage (st, false) p).1 ps := by
  obtain ⟨nd, ld, jd⟩ := st
  have h2 : nd = some c := h
  subst h2
  rfl

theorem goodFetchB_cons_some {st : FetchState} {c : Nat} (h : st.next_date = some c)
    (p : Page) (ps : List Page) :
    goodFetchB st (p :: ps) =
      (p.data.all (fun r => c ≤ r.sampleTime) &&
        goodFetchB (processPage (st, false) p).1 ps) := by
  obtain ⟨nd, ld, jd⟩ := st
  have h2 : nd = some c := h
  subst h2
  rfl

/-- The content of the per-page continuation hypothesis: when the page has
a declared continuation and a last record, the continuation is at least
that record's `sampleTime`. -/
theorem contOkB_le {p : Page} {t : Nat} {r0 : RawRecord}
    (h1 : extractNext p = some t) (h2 : p.data.getLast? = some r0)
    (h : contOkB p = true) : r0.sampleTime ≤ t := by
  unfold contOkB at h
  rw [h1, h2] at h
  exact of_decide_eq_true h

/-- C6 (amended): for every sequence of pages in which each page's
declared continuation is at least the `sampleTime` of its last record AND
(the proviso the counterexample forces) every record's `sampleTime` is at
least the cursor used to fetch its page, the successive Paging-fetch
cursor values form a non-decreasing sequence. -/
theorem claim6_monotonicity_amended :
    ∀ (pages : List Page) (st : FetchState),
      (∀ p ∈ pages, contOkB p = true) →
      goodFetchB st pages = true →
      List.Chain' (fun a b : Nat => a ≤ b) (streamCursors st pages) := by
  intro pages
  induction pages with
  | nil => intro st _ _; simp [streamCursors]
  | cons p ps ih =>
    intro st h1 h2
    cases hc : st.next_date with
    | none =>
      rw [streamCursors_cons_none hc]
      simp
    | some c =>
      rw [streamCursors_cons_some hc]
      rw [goodFetchB_cons_some hc] at h2
      rw [Bool.and_eq_true] at h2
      obtain ⟨hall, h2t⟩ := h2
      have h1p : contOkB p = true := h1 p (List.mem_cons_self p ps)
      have h1t : ∀ q ∈ ps, contOkB q = true := fun q hq => h1 q (List.mem_cons_of_mem p hq)
      rw [List.chain'_cons']
      refine ⟨?_, ih _ h1t h2t⟩
      intro y hy
      cases ps with
      | nil => simp [streamCursors] at hy
      | cons q qs =>
        cases hc2 : (processPage (st, false) p).1.next_date with
        | none => rw [streamCursors_cons_none hc2] at hy; simp at hy
        | some c2 =>
          rw [streamCursors_cons_some hc2] at hy
          simp only [List.head?_cons, Option.mem_def, Option.some.injEq] at hy
          subst hy
          by_cases hdata : p.data = []
          · have hsame : (processPage (st, false) p).1 = st := by
              rw [processPage_nil hdata]
            rw [hsame, hc] at hc2
            cases hc2
            exact Nat.le_refl c
          · have hlast := List.getLast?_eq_getLast_of_ne_nil hdata
            obtain ⟨hnd, _⟩ :=
              @processPage_next_last st false p (p.data.getLast hdata) hlast
            have hext : extractNext p = some c2 := hnd.symm.trans hc2
            have hle1 : (p.data.getLast hdata).sampleTime ≤ c2 :=
              contOkB_le hext hlast h1p
            have hmem : p.data.getLast hdata ∈ p.data := List.getLast_mem hdata
            have hle2 : c ≤ (p.data.getLast hdata).sampleTime :=
              of_decide_eq_true (List.all_eq_true.mp hall _ hmem)
            exact Nat.le_trans hle2 hle1

/-- C6 counterexample: both pages satisfy the claimed hypothesis
(continuation ≥ last record's `sampleTime`), yet the cursor sequence of
the stream is `[100, 6]`, which is not non-decreasing. -/
theorem claim6_counterexample :
    (∀ p ∈ [c6P1, c6P2], contOkB p = true) ∧
      streamCursors c6St [c6P1, c6P2] = [100, 6] ∧
      ¬ List.Chain' (fun a b : Nat => a ≤ b) (streamCursors c6St [c6P1, c6P2]) := by
  refine ⟨by decide, rfl, ?_⟩
  intro h
  have h2 : List.Chain' (fun a b : Nat => a ≤ b) [100, 6] := h
  obtain ⟨hh, _⟩ := List.chain'_cons'.mp h2
  have := hh 6 rfl
  omega

/-- C6 witness: the amended theorem applied at a concrete two-page run
(cursors `[1, 3]`). -/
theorem claim6_witness :
    ((∀ p ∈ [c6wP1, c6wP2], contOkB p = true) ∧
        goodFetchB c6wSt [c6wP1, c6wP2] = true) ∧
      List.Chain' (fun a b : Nat => a ≤ b) (streamCursors c6wSt [c6wP1, c6wP2]) :=
  ⟨⟨by decide, by decide⟩,
    claim6_monotonicity_amended [c6wP1, c6wP2] c6wSt (by decide) (by decide)⟩

end OncDts
